import Mathlib

/-!
# Verification of the cognos client (9072997/cognos)

Shallow embedding of the request-execution engine and the report-polling
state machine of the cognos Go client, together with theorems settling the
frozen claims about its specification.

The repository carries three revisions of `DownloadReportCSV`:
* `src/download.go` — the revision whose poll-form map is declared but never
  allocated (`var valuesToSend url.Values`), embedded as `DownloadReportCSVdl`;
* `src/unnamed/part_001` — the revision that rebuilds the poll form from the
  current response on every loop iteration, embedded as `DownloadReportCSV1`;
* `src/unnamed/part_002` — the revision that checks both "working" marker
  encodings in its loop condition but builds the poll form once, before the
  loop, embedded as `DownloadReportCSV2`.

The HTTP transport (`CognosInstance.Request` in `src/unnamed/part_000`) is
embedded over an abstract sequence of per-attempt outcomes.  The retry
combinator it uses, `jgh.Try`, lives in a separate library that is not part
of this repository's sources; its semantics are modelled from the spec
(see `runRequest`).
-/

set_option maxRecDepth 100000

deriving instance DecidableEq for Except

namespace Cognos

/-! ## Basic string machinery (Go `strings.Contains`, the regex scans) -/

/-- Whether `sub` occurs as a contiguous segment of the character list. -/
def containsList (sub : List Char) : List Char → Bool
  | [] => sub.isEmpty
  | c :: rest => sub.isPrefixOf (c :: rest) || containsList sub rest

/-- Go `strings.Contains(s, sub)`: `sub` occurs as a contiguous substring of `s`. -/
def goContains (s sub : String) : Bool :=
  containsList sub.toList s.toList

/-- The single-quote character, written by code point to keep source text plain. -/
def squote : Char := Char.ofNat 39

/-- One pattern character of the `findJSONValueInPage` regex.  The search key is
spliced into the regex unescaped (the source flags this: "BUG(jon): searchKey is
not escaped"), so a dot in the key is the regex wildcard, matching any
character except a newline; every other character used in the keys is literal. -/
def patCharMatches (p c : Char) : Bool :=
  if p = '.' then c != '\n' else p == c

/-- Whether the pattern `pat` (with dot-wildcards) matches a front segment of `s`. -/
def patMatches : List Char → List Char → Bool
  | [], _ => true
  | _ :: _, [] => false
  | p :: ps, c :: cs => patCharMatches p c && patMatches ps cs

/-- The `(.*?)"` tail of the `findJSONValueInPage` regex at a fixed start:
capture characters up to the first `"`.  Since `.` does not match a newline,
a newline before the closing quote means no match starts here. -/
def jsonValueAfter : List Char → Option (List Char)
  | [] => none
  | c :: rest =>
    if c = '"' then some []
    else if c = '\n' then none
    else (jsonValueAfter rest).map (fun v => c :: v)

/-- Leftmost match of `pat` followed by a `(.*?)"` capture: at each position,
if the pattern matches and the capture completes, return the captured value,
otherwise advance one character (Go regexp leftmost-match semantics). -/
def findJSONList (pat : List Char) : List Char → Option (List Char)
  | [] => none
  | c :: rest =>
    if patMatches pat (c :: rest) then
      match jsonValueAfter ((c :: rest).drop pat.length) with
      | some v => some v
      | none => findJSONList pat rest
    else findJSONList pat rest

/-- `findJSONValueInPage` from the source: scan `html` with the regex
`"<key>": "(.*?)"` and return the first captured value, or `none` where the
source panics with "Could not find JSON value <key> in page". -/
def findJSONValueInPage (html key : String) : Option String :=
  (findJSONList ("\"" ++ key ++ "\": \"").toList html.toList).map String.mk

/-- Literal head of the download-link regex `var sURL = '([^']+)';`. -/
def sUrlPat : List Char := ("var sURL = ").toList ++ [squote]

/-- The `([^']+)';` tail of the download-link regex at a fixed start: a
nonempty run of non-quote characters, then a quote, then a semicolon. -/
def surlCapture (s : List Char) : Option (List Char) :=
  let run := s.takeWhile (fun c => c ≠ squote)
  if run.isEmpty then none
  else
    match s.drop run.length with
    | c1 :: c2 :: _ => if c1 = squote && c2 = ';' then some run else none
    | _ => none

/-- Leftmost match of the download-link regex `var sURL = '([^']+)';`,
returning the captured URL. -/
def extractSURL : List Char → Option (List Char)
  | [] => none
  | c :: rest =>
    if sUrlPat.isPrefixOf (c :: rest) then
      match surlCapture ((c :: rest).drop sUrlPat.length) with
      | some u => some u
      | none => extractSURL rest
    else extractSURL rest

/-! ## Go `net/url` query escaping (`url.QueryEscape`, `url.Values.Encode`) -/

/-- UTF-8 byte sequence of a character (Go strings are byte strings; escaping
works per byte). -/
def utf8Bytes (c : Char) : List Nat :=
  let n := c.toNat
  if n < 128 then [n]
  else if n < 2048 then
    [192 + n / 64, 128 + n % 64]
  else if n < 65536 then
    [224 + n / 4096, 128 + (n / 64) % 64, 128 + n % 64]
  else
    [240 + n / 262144, 128 + (n / 4096) % 64, 128 + (n / 64) % 64, 128 + n % 64]

/-- Uppercase hexadecimal digit. -/
def hexUpper (n : Nat) : Char :=
  if n < 10 then Char.ofNat (48 + n) else Char.ofNat (55 + n)

/-- Bytes Go's query escaper leaves untouched: ASCII alphanumerics and
`-`, `_`, `.`, `~`. -/
def isUnreservedQueryByte (b : Nat) : Bool :=
  (65 ≤ b && b ≤ 90) || (97 ≤ b && b ≤ 122) || (48 ≤ b && b ≤ 57) ||
    b = 45 || b = 95 || b = 46 || b = 126

/-- Escape one byte the way Go's `url.QueryEscape` does: unreserved bytes kept,
space becomes `+`, everything else percent-encoded in uppercase hex. -/
def escapeQueryByte (b : Nat) : List Char :=
  if isUnreservedQueryByte b then [Char.ofNat b]
  else if b = 32 then ['+']
  else ['%', hexUpper (b / 16), hexUpper (b % 16)]

/-- Go `url.QueryEscape`. -/
def queryEscape (s : String) : String :=
  String.mk ((s.toList.flatMap utf8Bytes).flatMap escapeQueryByte)

/-- Go `url.Values.Encode` on the given key/value pairs.  `Encode` emits pairs
in sorted key order; callers below pass the pair list already sorted by key. -/
def urlValuesEncode (pairs : List (String × String)) : String :=
  String.intercalate "&" (pairs.map (fun p => queryEscape p.1 ++ "=" ++ queryEscape p.2))

/-! ## Data model -/

/-- `FolderEntryType` from `src/unnamed/part_000`. -/
inductive FolderEntryType
  | Folder
  | Report
deriving DecidableEq

/-- `FolderEntry` from `src/unnamed/part_000` (the Go field `Type` is spelled
`type` here because `Type` is reserved in Lean). -/
structure FolderEntry where
  type : FolderEntryType
  ID : String
deriving DecidableEq

/-- `CognosInstance` configuration fields (`src/unnamed/part_000`).  The Go
struct also holds an `http.Client` and a semaphore; those are I/O and
concurrency state and are represented by the abstract server/outcome
parameters of the operations below.  `RetryDelay` is `uint` and `RetryCount`
is `int` in Go; both are modelled as `Nat`. -/
structure CognosInstance where
  User : String
  Pass : String
  URL : String
  DSN : String
  RetryDelay : Nat
  RetryCount : Nat
deriving DecidableEq

/-- One HTTP request as issued through `CognosInstance.Request`:
method, link (path relative to the base URL) and request body. -/
structure Req where
  method : String
  link : String
  body : String
deriving DecidableEq

/-- `reportLinkFromID` from `src/unnamed/part_000`. -/
def reportLinkFromID (id : String) : String :=
  "/ibmcognos/cgi-bin/cognos.cgi" ++
    "?b_action=cognosViewer" ++
    "&ui.action=run" ++
    "&ui.object=" ++ queryEscape id ++
    "&run.outputFormat=CSV" ++
    "&run.prompt=false"

/-- `folderLinkFromID` from `src/unnamed/part_000`. -/
def folderLinkFromID (id : String) : String :=
  "/ibmcognos/cgi-bin/cognos.cgi" ++
    "?b_action=xts.run" ++
    "&m=portal/cc.xts" ++
    "&m_folder=" ++ id

/-! ## The report-download state machine

A run is driven against an abstract server, `server : Nat → Req → String`,
giving the response body to the `n`-th request issued in the run (requests
are numbered from 0 in issue order).  Each embedding returns the run result
together with the trace of requests issued.  The Go `for` loop has no bound;
it is embedded with an explicit fuel parameter, and exhausting the fuel is
reported as `DLResult.outOfFuel` (the real loop would simply keep going). -/

/-- Result of a `DownloadReportCSV` run.  The error constructors stand for the
panics in the source: a missing poll field (`findJSONValueInPage`), the
nil-map write in the `src/download.go` revision, the "report prompted for
additional information" panic and the "page we could not understand" panic. -/
inductive DLResult
  | csv (body : String)
  | errMissingField (msg : String)
  | errNilMap
  | errPrompting
  | errNotUnderstood
  | outOfFuel
deriving DecidableEq

/-- The plain working marker searched for with `strings.Contains`. -/
def wStr1 : String := "\"m_sStatus\": \"working\""

/-- The HTML-entity-escaped working marker (`wStr2` in `src/unnamed/part_002`). -/
def wStr2 : String := "&quot;m_sStatus&quot;: &quot;stillWorking&quot;"

/-- The prompting marker. -/
def promptStr : String := "\"m_sStatus\": \"prompting\""

/-- Loop condition of `src/unnamed/part_002`: either working encoding present. -/
def isWorkingEither (body : String) : Bool :=
  goContains body wStr1 || goContains body wStr2

/-- The initial report-execution request of a `DownloadReportCSV` run. -/
def initReq (id : String) : Req :=
  { method := "GET", link := reportLinkFromID id, body := "" }

/-- The fixed portal endpoint the poll POSTs go to (parts 001/002). -/
def cgiLink : String := "/ibmcognos/cgi-bin/cognos.cgi"

/-- A poll POST request carrying the form-encoded body `pd`. -/
def pollReq (pd : String) : Req :=
  { method := "POST", link := cgiLink, body := pd }

/-- `findJSONValueInPage` as used by the poll-form builders: the captured
value, or the source's panic message as an error. -/
def findVal (html key : String) : Except DLResult String :=
  match findJSONValueInPage html key with
  | some v => Except.ok v
  | none => Except.error (DLResult.errMissingField ("Could not find JSON value " ++ key ++ " in page"))

/-- The poll form of `src/unnamed/part_001` and `src/unnamed/part_002`
(`valuesToSend.Set(...)` lines, identical in both): each field is looked up in
`html` in source order (the first missing field is the one the source panics
on), and the result is `url.Values.Encode` of the pairs, listed here in the
sorted key order `Encode` produces. -/
def buildPollData (html : String) : Except DLResult String := do
  let bAction ← findVal html "b_action"
  let actionState ← findVal html "m_sActionState"
  let cvId ← findVal html "cv.id"
  let objectPermissions ← findVal html "cv.objectPermissions"
  let executionParameters ← findVal html "m_sParameters"
  let tracking ← findVal html "m_sTracking"
  let cafContext ← findVal html "m_sCAFContext"
  let conversation ← findVal html "m_sConversation"
  let uiObject ← findVal html "ui.object"
  let uiObjectClass ← findVal html "ui.objectClass"
  let uiPrimaryAction ← findVal html "ui.primaryAction"
  Except.ok (urlValuesEncode
    [("b_action", bAction),
     ("cv.actionState", actionState),
     ("cv.catchLogOnFault", "true"),
     ("cv.id", cvId),
     ("cv.objectPermissions", objectPermissions),
     ("cv.responseFormat", "data"),
     ("cv.showFaultPage", "true"),
     ("executionParameters", executionParameters),
     ("m_tracking", tracking),
     ("ui.action", "wait"),
     ("ui.cafcontextid", cafContext),
     ("ui.conversation", conversation),
     ("ui.object", uiObject),
     ("ui.objectClass", uiObjectClass),
     ("ui.primaryAction", uiPrimaryAction)])

/-- Outcome of a poll loop whose body can itself fail. -/
inductive LoopRes
  | done (body : String)
  | buildFail (e : DLResult)
  | fuelOut
deriving DecidableEq

/-- The poll loop of `src/unnamed/part_002`: the form body `pd` was built once
before the loop and the same `pd` is POSTed on every iteration; the loop
continues while either working encoding is present in the current response.
Returns the final body (or `none` on fuel exhaustion), the next request
number, and the poll requests issued. -/
def pollLoop2 (server : Nat → Req → String) (pd : String) :
    Nat → String → Nat → Option String × Nat × List Req
  | 0, body, n =>
    if isWorkingEither body then (none, n, []) else (some body, n, [])
  | f + 1, body, n =>
    if isWorkingEither body then
      let req := pollReq pd
      let p := pollLoop2 server pd f (server n req) (n + 1)
      (p.1, p.2.1, req :: p.2.2)
    else (some body, n, [])

/-- The poll loop of `src/unnamed/part_001`: on every iteration the form body
is rebuilt from the current response (`findJSONValueInPage(respHTML, ...)`),
and the loop continues while the plain working marker is present. -/
def pollLoop1 (server : Nat → Req → String) :
    Nat → String → Nat → LoopRes × Nat × List Req
  | 0, body, n =>
    if goContains body wStr1 then
      match buildPollData body with
      | Except.error e => (LoopRes.buildFail e, n, [])
      | Except.ok _ => (LoopRes.fuelOut, n, [])
    else (LoopRes.done body, n, [])
  | f + 1, body, n =>
    if goContains body wStr1 then
      match buildPollData body with
      | Except.error e => (LoopRes.buildFail e, n, [])
      | Except.ok pd =>
        let req := pollReq pd
        let p := pollLoop1 server f (server n req) (n + 1)
        (p.1, p.2.1, req :: p.2.2)
    else (LoopRes.done body, n, [])

/-- The first poll-form statement of the `src/download.go` revision.
`valuesToSend` is declared (`var valuesToSend url.Values`) but never
allocated, so it is a nil map; `url.Values.Add` assigns into the map, and
assignment to a nil map panics at run time.  The argument of the first `Add`,
`findJSONValueInPage(respHTML, "b_action")`, is evaluated before the `Add`
itself, so a page without a `b_action` field panics there first; otherwise
the `Add` panics on the nil map.  No later statement of the build is reached. -/
def buildPollDataDl (html : String) : Except DLResult String :=
  match findJSONValueInPage html "b_action" with
  | none => Except.error (DLResult.errMissingField "Could not find JSON value b_action in page")
  | some _ => Except.error DLResult.errNilMap

/-- The poll loop of the `src/download.go` revision: same shape as
`pollLoop1`, but the form build always panics (`buildPollDataDl`), and the
POST would go to the empty link (`c.Request("POST", "", postData)`). -/
def pollLoopDl (server : Nat → Req → String) :
    Nat → String → Nat → LoopRes × Nat × List Req
  | 0, body, n =>
    if goContains body wStr1 then
      match buildPollDataDl body with
      | Except.error e => (LoopRes.buildFail e, n, [])
      | Except.ok _ => (LoopRes.fuelOut, n, [])
    else (LoopRes.done body, n, [])
  | f + 1, body, n =>
    if goContains body wStr1 then
      match buildPollDataDl body with
      | Except.error e => (LoopRes.buildFail e, n, [])
      | Except.ok pd =>
        let req : Req := { method := "POST", link := "", body := pd }
        let p := pollLoopDl server f (server n req) (n + 1)
        (p.1, p.2.1, req :: p.2.2)
    else (LoopRes.done body, n, [])

/-- The code after the poll loop (identical in all three revisions): search the
final body for `var sURL = '([^']+)';`; if found, issue one `GET` to the
captured URL and return its body; otherwise check the prompting marker and
panic accordingly. -/
def finishDownload (server : Nat → Req → String) (body : String) (n : Nat)
    (trace : List Req) : DLResult × List Req :=
  match extractSURL body.toList with
  | some u =>
    let req : Req := { method := "GET", link := String.mk u, body := "" }
    (DLResult.csv (server n req), trace ++ [req])
  | none =>
    if goContains body promptStr then (DLResult.errPrompting, trace)
    else (DLResult.errNotUnderstood, trace)

/-- Result of the submit-and-poll phase of `src/unnamed/part_002`'s
`DownloadReportCSV` (everything before the download-link search). -/
inductive PhaseRes
  | finished (body : String) (n : Nat) (trace : List Req)
  | failed (e : DLResult) (trace : List Req)
deriving DecidableEq

/-- Submit-and-poll phase of `src/unnamed/part_002`'s `DownloadReportCSV`:
issue the initial report request; if the plain working marker is present,
build the poll form once from that initial response and run `pollLoop2`
with it. -/
def pollPhase2 (server : Nat → Req → String) (id : String) (fuel : Nat) : PhaseRes :=
  let r0 := initReq id
  let resp0 := server 0 r0
  if goContains resp0 wStr1 then
    match buildPollData resp0 with
    | Except.error e => PhaseRes.failed e [r0]
    | Except.ok pd =>
      match pollLoop2 server pd fuel resp0 1 with
      | (none, _, tr) => PhaseRes.failed DLResult.outOfFuel (r0 :: tr)
      | (some b, n, tr) => PhaseRes.finished b n (r0 :: tr)
  else PhaseRes.finished resp0 1 [r0]

/-- `DownloadReportCSV` of `src/unnamed/part_002`. -/
def DownloadReportCSV2 (server : Nat → Req → String) (id : String) (fuel : Nat) :
    DLResult × List Req :=
  match pollPhase2 server id fuel with
  | PhaseRes.finished b n tr => finishDownload server b n tr
  | PhaseRes.failed e tr => (e, tr)

/-- `DownloadReportCSV` of `src/unnamed/part_001`. -/
def DownloadReportCSV1 (server : Nat → Req → String) (id : String) (fuel : Nat) :
    DLResult × List Req :=
  let r0 := initReq id
  match pollLoop1 server fuel (server 0 r0) 1 with
  | (LoopRes.done b, n, tr) => finishDownload server b n (r0 :: tr)
  | (LoopRes.buildFail e, _, tr) => (e, r0 :: tr)
  | (LoopRes.fuelOut, _, tr) => (DLResult.outOfFuel, r0 :: tr)

/-- `DownloadReportCSV` of the `src/download.go` revision. -/
def DownloadReportCSVdl (server : Nat → Req → String) (id : String) (fuel : Nat) :
    DLResult × List Req :=
  let r0 := initReq id
  match pollLoopDl server fuel (server 0 r0) 1 with
  | (LoopRes.done b, n, tr) => finishDownload server b n (r0 :: tr)
  | (LoopRes.buildFail e, _, tr) => (e, r0 :: tr)
  | (LoopRes.fuelOut, _, tr) => (DLResult.outOfFuel, r0 :: tr)

/-! ## Transport core: `CognosInstance.Request` (`src/unnamed/part_000`)

One call makes a sequence of attempts; the outcome of the `i`-th attempt is
given by an abstract `outcomes : Nat → AttemptOutcome` (either a
transport-level error from `client.Do`, or an HTTP status with a body).  The
retry driver is `jgh.Try(int(c.RetryDelay), c.RetryCount, true, "", fn)`,
which lives in the external `9072997/jgh` library and is not among this
repository's sources.

Modelled from the spec: `jgh.Try` performs the first attempt plus up to
`RetryCount` further attempts, sleeping `RetryDelay` seconds between
consecutive attempts; an attempt that throws a transport-level error or that
receives HTTP 401 is a retryable failure, any other non-200 status is fatal
for the whole call with no further attempt, and when all attempts are
exhausted the call fails with an error naming the target path (the source's
`panic("Cognos request to " + link + " failed.")`).  This matches the
source's own documentation of `MakeInstance` ("retryCount is the number of
times a failed request will be retried"). -/

/-- Outcome of a single HTTP attempt inside `Request`. -/
inductive AttemptOutcome
  | transportError
  | status (code : Nat) (body : String)

/-- How `Request`'s closure treats one attempt (`src/unnamed/part_000`,
lines 244-274): a transport error is a retryable failure, HTTP 401 is logged
and returns `false` (retryable), any other non-200 status panics (fatal),
and 200 succeeds with the response body. -/
def classifyAttempt : AttemptOutcome → Except (Option Nat) String
  | AttemptOutcome.transportError => Except.error none
  | AttemptOutcome.status code body =>
    if code = 401 then Except.error none
    else if code = 200 then Except.ok body
    else Except.error (some code)

/-- Observable events of one `Request` call: the start of an attempt, and the
sleeps the retry driver inserts between attempts. -/
inductive Event
  | attempt (i : Nat)
  | sleep (d : Nat)
deriving DecidableEq

/-- Result of one `Request` call. -/
inductive RequestResult
  | ok (body : String)
  | fatalStatus (code : Nat)
  | exhausted (msg : String)
deriving DecidableEq

/-- The retry loop of `Request` (`jgh.Try` modelled from the spec, see above):
`i` is the index of the current attempt, `fuel` the number of retries still
allowed after it. -/
def runRequest (D : Nat) (link : String) (outcomes : Nat → AttemptOutcome) :
    Nat → Nat → List Event × RequestResult
  | 0, i =>
    match classifyAttempt (outcomes i) with
    | Except.ok b => ([Event.attempt i], RequestResult.ok b)
    | Except.error (some code) => ([Event.attempt i], RequestResult.fatalStatus code)
    | Except.error none =>
      ([Event.attempt i], RequestResult.exhausted ("Cognos request to " ++ link ++ " failed."))
  | f + 1, i =>
    match classifyAttempt (outcomes i) with
    | Except.ok b => ([Event.attempt i], RequestResult.ok b)
    | Except.error (some code) => ([Event.attempt i], RequestResult.fatalStatus code)
    | Except.error none =>
      let p := runRequest D link outcomes f (i + 1)
      (Event.attempt i :: Event.sleep D :: p.1, p.2)

/-- `CognosInstance.Request`: first attempt plus up to `RetryCount` retries. -/
def Request (c : CognosInstance) (link : String) (outcomes : Nat → AttemptOutcome) :
    List Event × RequestResult :=
  runRequest c.RetryDelay link outcomes c.RetryCount 0

/-- Number of attempts recorded in an event trace. -/
def countAttempts : List Event → Nat
  | [] => 0
  | Event.attempt _ :: r => countAttempts r + 1
  | Event.sleep _ :: r => countAttempts r

/-- Start times of the attempts in an event trace, accumulating the sleeps. -/
def attemptTimes : List Event → Nat → List Nat
  | [], _ => []
  | Event.attempt _ :: r, t => t :: attemptTimes r t
  | Event.sleep d :: r, t => attemptTimes r (t + d)

/-! ## Folder path resolution (`src/unnamed/part_000`, `FolderEntryFromPath`)

`LsFolder` and `findFolderRoots` perform HTTP requests and HTML/regex
extraction; for path resolution they are abstracted into a `FolderWorld`
giving the two root folder ids and each folder's listing.  The walk records
the ids whose listings it fetched (each `LsFolder` call is one request). -/

/-- The remote folder tree as the path walker sees it. -/
structure FolderWorld where
  publicRootID : String
  myRootID : String
  listing : String → List (String × FolderEntry)

/-- Lookup of a name in a folder listing (the Go map access `entries[pathComponent]`). -/
def lookupEntry (l : List (String × FolderEntry)) (name : String) : Option FolderEntry :=
  (l.find? (fun p => p.1 = name)).map (fun p => p.2)

/-- Result of `FolderEntryFromPath`; the error constructors stand for the
source's panics. -/
inductive PathRes
  | ok (e : FolderEntry)
  | errEmpty
  | errRoot (root : String)
  | errNotFound (name : String)
  | errReportMid (name : String)
deriving DecidableEq

/-- The walk over `path[1:]`: list the current folder, look up the next
component (panicking "Could not find folder entry <name>" if absent), and
panic "<name> is a report but it is in the middle of a path" when a report
shows up before the last component.  The second value returned is the list of
folder ids passed to `LsFolder`, in order. -/
def folderWalk (w : FolderWorld) : FolderEntry → List String → PathRes × List String
  | cur, [] => (PathRes.ok cur, [])
  | cur, name :: rest =>
    let entries := w.listing cur.ID
    match lookupEntry entries name with
    | none => (PathRes.errNotFound name, [cur.ID])
    | some next =>
      if next.type = FolderEntryType.Report ∧ rest ≠ [] then
        (PathRes.errReportMid name, [cur.ID])
      else
        let p := folderWalk w next rest
        (p.1, cur.ID :: p.2)

/-- `FolderEntryFromPath`: resolve the root component ("public" or "~",
anything else panics), then walk the rest of the path. -/
def FolderEntryFromPath (w : FolderWorld) (path : List String) : PathRes × List String :=
  match path with
  | [] => (PathRes.errEmpty, [])
  | root :: rest =>
    if root = "public" then
      folderWalk w { type := FolderEntryType.Folder, ID := w.publicRootID } rest
    else if root = "~" then
      folderWalk w { type := FolderEntryType.Folder, ID := w.myRootID } rest
    else (PathRes.errRoot root, [])

/-! ## Freshness of poll requests

`freshPollsB server body n polls` states that, starting from response `body`
with the next request numbered `n`, every request in `polls` is a POST to the
portal endpoint whose form body is exactly `buildPollData` of the response
immediately preceding it in the run (the response to the previous request,
`body` for the first poll).  This is the spec's staleness invariant for poll
requests. -/
def freshPollsB (server : Nat → Req → String) : String → Nat → List Req → Bool
  | _, _, [] => true
  | body, n, r :: rest =>
    (r.method == "POST") && (r.link == cgiLink) &&
      (match buildPollData body with
       | Except.ok s => s == r.body
       | Except.error _ => false) &&
      freshPollsB server (server n r) (n + 1) rest

/-! ## Concrete servers and pages used to instantiate the theorems -/

/-- A `"key": "value"` fragment as it appears in a response page. -/
def fieldStr (key v : String) : String :=
  "\"" ++ key ++ "\": \"" ++ v ++ "\" "

/-- All the fields `buildPollData` looks up, with a chosen `cv.id` value. -/
def pageFields (cvid : String) : String :=
  fieldStr "b_action" "xtsrun" ++
  fieldStr "m_sActionState" "run" ++
  fieldStr "cv.id" cvid ++
  fieldStr "cv.objectPermissions" "rwx" ++
  fieldStr "m_sParameters" "p" ++
  fieldStr "m_sTracking" "t1" ++
  fieldStr "m_sCAFContext" "caf" ++
  fieldStr "m_sConversation" "conv" ++
  fieldStr "ui.object" "obj" ++
  fieldStr "ui.objectClass" "cls" ++
  fieldStr "ui.primaryAction" "act"

/-- First working page of the staleness scenario: full field set, `cv.id` "AAA". -/
def cexBody0 : String := wStr1 ++ " " ++ pageFields "AAA"

/-- Second working page of the staleness scenario: `cv.id` has changed to "BBB". -/
def cexBody1 : String := wStr1 ++ " " ++ pageFields "BBB"

/-- Final page of the staleness scenario: a download link, no working marker. -/
def cexBody2 : String :=
  "done page var sURL = " ++ String.singleton squote ++ "/dl/x.csv" ++
    String.singleton squote ++ "; tail"

/-- Server of the staleness scenario: working page, changed working page,
then the download page. -/
def cexSrv : Nat → Req → String := fun n _ =>
  if n = 0 then cexBody0 else if n = 1 then cexBody1 else cexBody2

/-- The poll form built from `cexBody0` (what part_002 POSTs on every iteration). -/
def cexPd0 : String := (buildPollData cexBody0).toOption.getD ""

/-- A page carrying only the HTML-entity-escaped working marker. -/
def escSrv : Nat → Req → String := fun _ _ => wStr2

/-- A page carrying the prompting marker together with a download link. -/
def pBody : String :=
  promptStr ++ " var sURL = " ++ String.singleton squote ++ "/x.csv" ++
    String.singleton squote ++ ";"

/-- Server for the prompting-with-download-link scenario. -/
def pSrv : Nat → Req → String := fun n _ =>
  if n = 0 then pBody else "THECSV"

/-- A page that is immediately done, with a download link. -/
def doneBody : String :=
  "var sURL = " ++ String.singleton squote ++ "/d.csv" ++ String.singleton squote ++ ";"

/-- Server that answers the initial request with `doneBody` and any further
request with the CSV payload. -/
def doneSrv : Nat → Req → String := fun n _ =>
  if n = 0 then doneBody else "CSVDATA"

/-- A server that never stops working (used for the unbounded-polling claim). -/
def constSrv (body : String) : Nat → Req → String := fun _ _ => body

/-- A working page that does contain a `b_action` field (for the nil-map claim). -/
def dlBody : String := wStr1 ++ " " ++ fieldStr "b_action" "x"

/-- Server for the nil-map scenario. -/
def dlSrv : Nat → Req → String := fun _ _ => dlBody

/-- Instance used to instantiate the transport theorems: delay 2s, 3 retries. -/
def cW : CognosInstance :=
  { User := "u", Pass := "p", URL := "https://h", DSN := "d", RetryDelay := 2, RetryCount := 3 }

/-- Attempt outcomes that are HTTP 401 every time. -/
def o401 : Nat → AttemptOutcome := fun _ => AttemptOutcome.status 401 "x"

/-- Attempt outcomes: two 401s, then HTTP 500. -/
def oFatal : Nat → AttemptOutcome := fun i =>
  if i < 2 then AttemptOutcome.status 401 "x" else AttemptOutcome.status 500 "boom"

/-- Folder world used to instantiate the path-resolution theorem: the public
root "PUB" contains folder "A" (id "FA", empty) and report "R". -/
def wW : FolderWorld :=
  { publicRootID := "PUB"
    myRootID := "MY"
    listing := fun fid =>
      if fid = "PUB" then
        [("A", { type := FolderEntryType.Folder, ID := "FA" }),
         ("R", { type := FolderEntryType.Report, ID := "RR" })]
      else [] }

/-! ## Transport-core lemmas -/

/-- If every attempt is a retryable failure, the retry loop uses all its fuel,
fails with the message naming the link, performs `fuel + 1` attempts, and
schedules them `D` seconds apart. -/
theorem runRequest_all_retryable (D : Nat) (link : String)
    (outcomes : Nat → AttemptOutcome)
    (h : ∀ i, classifyAttempt (outcomes i) = Except.error none) :
    ∀ fuel i t,
      (runRequest D link outcomes fuel i).2
          = RequestResult.exhausted ("Cognos request to " ++ link ++ " failed.")
        ∧ countAttempts (runRequest D link outcomes fuel i).1 = fuel + 1
        ∧ attemptTimes (runRequest D link outcomes fuel i).1 t
          = (List.range (fuel + 1)).map (fun k => t + k * D) := by
  intro fuel
  induction fuel with
  | zero =>
    intro i t
    refine ⟨?_, ?_, ?_⟩ <;>
      simp [runRequest, h i, countAttempts, attemptTimes, List.range_succ]
  | succ f ih =>
    intro i t
    obtain ⟨ih1, ih2, ih3⟩ := ih (i + 1) (t + D)
    have hr : runRequest D link outcomes (f + 1) i
        = (Event.attempt i :: Event.sleep D :: (runRequest D link outcomes f (i + 1)).1,
           (runRequest D link outcomes f (i + 1)).2) := by
      simp only [runRequest, h i]
    refine ⟨by rw [hr]; exact ih1, ?_, ?_⟩
    · rw [hr]
      simp [countAttempts, ih2]
    · rw [hr]
      simp only [attemptTimes]
      rw [ih3, List.range_succ_eq_map (f + 1), List.map_cons, List.map_map]
      refine congrArg₂ _ (by omega) ?_
      apply List.map_congr_left
      intro k _
      simp [Function.comp, Nat.succ_mul]
      ring

/-- If the first `k` attempts are retryable failures and attempt `k` (which the
fuel still allows) is a fatal non-200/non-401 status, the loop stops right
there with the fatal result, having made `k + 1` attempts. -/
theorem runRequest_fatal_stops (D : Nat) (link : String)
    (outcomes : Nat → AttemptOutcome) :
    ∀ (k fuel i code : Nat),
      k ≤ fuel →
      (∀ j, j < k → classifyAttempt (outcomes (i + j)) = Except.error none) →
      classifyAttempt (outcomes (i + k)) = Except.error (some code) →
      (runRequest D link outcomes fuel i).2 = RequestResult.fatalStatus code
        ∧ countAttempts (runRequest D link outcomes fuel i).1 = k + 1 := by
  intro k
  induction k with
  | zero =>
    intro fuel i code _ _ hc
    rw [Nat.add_zero] at hc
    cases fuel with
    | zero => refine ⟨?_, ?_⟩ <;> simp [runRequest, hc, countAttempts]
    | succ f => refine ⟨?_, ?_⟩ <;> simp [runRequest, hc, countAttempts]
  | succ k ih =>
    intro fuel i code hk hpre hc
    obtain ⟨f, rfl⟩ : ∃ f, fuel = f + 1 := ⟨fuel - 1, by omega⟩
    have h0 : classifyAttempt (outcomes i) = Except.error none := by
      have h2 := hpre 0 (by omega)
      rwa [Nat.add_zero] at h2
    have hpre' : ∀ j, j < k → classifyAttempt (outcomes (i + 1 + j)) = Except.error none := by
      intro j hj
      have h2 := hpre (j + 1) (by omega)
      rwa [show i + (j + 1) = i + 1 + j by omega] at h2
    have hc' : classifyAttempt (outcomes (i + 1 + k)) = Except.error (some code) := by
      rwa [show i + (k + 1) = i + 1 + k by omega] at hc
    obtain ⟨ih1, ih2⟩ := ih f (i + 1) code (by omega) hpre' hc'
    have hr : runRequest D link outcomes (f + 1) i
        = (Event.attempt i :: Event.sleep D :: (runRequest D link outcomes f (i + 1)).1,
           (runRequest D link outcomes f (i + 1)).2) := by
      simp only [runRequest, h0]
    rw [hr]
    exact ⟨ih1, by simp [countAttempts, ih2]⟩

/-! ## Claim theorems -/

/-- Claim C1.  For every `CognosInstance` with retry count `R` and retry delay
`D`, a `Request` call whose every attempt receives HTTP 401 fails with the
error naming the target path, after exactly `R` attempts beyond the first
(`R + 1` attempts in total), with consecutive attempts separated by at least
`D` seconds (here: exactly `D`, the start times being `0, D, 2D, ...`).
The retry driver `jgh.Try` is external to this repository and is modelled
from the spec (see `runRequest`). -/
theorem request_all_401_retry_schedule (c : CognosInstance) (link : String)
    (outcomes : Nat → AttemptOutcome)
    (h : ∀ i, ∃ b, outcomes i = AttemptOutcome.status 401 b) :
    (Request c link outcomes).2
        = RequestResult.exhausted ("Cognos request to " ++ link ++ " failed.")
      ∧ countAttempts (Request c link outcomes).1 = c.RetryCount + 1
      ∧ attemptTimes (Request c link outcomes).1 0
          = (List.range (c.RetryCount + 1)).map (fun k => k * c.RetryDelay)
      ∧ List.Chain' (fun a b => a + c.RetryDelay ≤ b)
          (attemptTimes (Request c link outcomes).1 0) := by
  have h' : ∀ i, classifyAttempt (outcomes i) = Except.error none := by
    intro i
    obtain ⟨b, hb⟩ := h i
    simp [hb, classifyAttempt]
  obtain ⟨h1, h2, h3⟩ :=
    runRequest_all_retryable c.RetryDelay link outcomes h' c.RetryCount 0 0
  have h3' : attemptTimes (Request c link outcomes).1 0
      = (List.range (c.RetryCount + 1)).map (fun k => k * c.RetryDelay) := by
    rw [Request, h3]
    apply List.map_congr_left
    intro k _
    omega
  refine ⟨h1, h2, h3', ?_⟩
  rw [h3']
  rw [List.chain'_map]
  rw [show c.RetryCount + 1 = Nat.succ c.RetryCount from rfl]
  rw [List.chain'_range_succ]
  intro m _
  have : Nat.succ m * c.RetryDelay = m * c.RetryDelay + c.RetryDelay := Nat.succ_mul m _
  omega

/-- Witness for C1 at a concrete instance: delay 2, retry count 3, every
attempt answered with HTTP 401. -/
theorem request_all_401_retry_schedule_witness :
    (∀ i, ∃ b, o401 i = AttemptOutcome.status 401 b)
    ∧ ((Request cW "/link" o401).2
          = RequestResult.exhausted ("Cognos request to " ++ "/link" ++ " failed.")
        ∧ countAttempts (Request cW "/link" o401).1 = cW.RetryCount + 1
        ∧ attemptTimes (Request cW "/link" o401).1 0
            = (List.range (cW.RetryCount + 1)).map (fun k => k * cW.RetryDelay)
        ∧ List.Chain' (fun a b => a + cW.RetryDelay ≤ b)
            (attemptTimes (Request cW "/link" o401).1 0)) :=
  ⟨fun _ => ⟨"x", rfl⟩,
   request_all_401_retry_schedule cW "/link" o401 (fun _ => ⟨"x", rfl⟩)⟩

/-- Claim C6.  An attempt that receives an HTTP status other than 200 and
other than 401 makes the whole `Request` call fail immediately with that
fatal status: the call makes exactly the attempts before it plus that one,
and no retry attempt after it.  (Attempt `k` is reached when the earlier
attempts all failed retryably and the retry budget allows it.) -/
theorem request_fatal_status_no_retry (c : CognosInstance) (link : String)
    (outcomes : Nat → AttemptOutcome) (k code : Nat) (body : String)
    (hk : k ≤ c.RetryCount)
    (hpre : ∀ j, j < k → classifyAttempt (outcomes j) = Except.error none)
    (hck : outcomes k = AttemptOutcome.status code body)
    (h200 : code ≠ 200) (h401 : code ≠ 401) :
    (Request c link outcomes).2 = RequestResult.fatalStatus code
      ∧ countAttempts (Request c link outcomes).1 = k + 1 := by
  have hc : classifyAttempt (outcomes (0 + k)) = Except.error (some code) := by
    rw [Nat.zero_add, hck]
    simp [classifyAttempt, h200, h401]
  exact runRequest_fatal_stops c.RetryDelay link outcomes k c.RetryCount 0 code hk
    (fun j hj => by rw [Nat.zero_add]; exact hpre j hj) hc

/-- Witness for C6: two 401 attempts, then HTTP 500; the call fails with the
fatal status after exactly three attempts although one more retry was allowed. -/
theorem request_fatal_status_no_retry_witness :
    ((2 : Nat) ≤ cW.RetryCount
      ∧ (∀ j, j < 2 → classifyAttempt (oFatal j) = Except.error none)
      ∧ oFatal 2 = AttemptOutcome.status 500 "boom")
    ∧ ((Request cW "/link" oFatal).2 = RequestResult.fatalStatus 500
        ∧ countAttempts (Request cW "/link" oFatal).1 = 2 + 1) :=
  ⟨⟨by decide, by decide, rfl⟩,
   request_fatal_status_no_retry cW "/link" oFatal 2 500 "boom" (by decide)
     (by decide) rfl (by decide) (by decide)⟩

/-! ## Poll-loop lemmas -/

/-- In the part_001 loop, every poll request issued is a POST to the portal
endpoint whose body is `buildPollData` of the response immediately preceding
it. -/
theorem pollLoop1_fresh (server : Nat → Req → String) :
    ∀ fuel body n, freshPollsB server body n (pollLoop1 server fuel body n).2.2 = true := by
  intro fuel
  induction fuel with
  | zero =>
    intro body n
    cases hw : goContains body wStr1 with
    | false => simp [pollLoop1, hw, freshPollsB]
    | true =>
      cases hbd : buildPollData body with
      | error e => simp [pollLoop1, hw, hbd, freshPollsB]
      | ok pd => simp [pollLoop1, hw, hbd, freshPollsB]
  | succ f ih =>
    intro body n
    cases hw : goContains body wStr1 with
    | false => simp [pollLoop1, hw, freshPollsB]
    | true =>
      cases hbd : buildPollData body with
      | error e => simp [pollLoop1, hw, hbd, freshPollsB]
      | ok pd =>
        simp [pollLoop1, hw, hbd, freshPollsB, pollReq, ih]

/-- In the part_002 loop, every poll request issued is a POST carrying the
fixed body `pd` the loop was started with. -/
theorem pollLoop2_body_const (server : Nat → Req → String) (pd : String) :
    ∀ fuel body n r, r ∈ (pollLoop2 server pd fuel body n).2.2 →
      r.body = pd ∧ r.method = "POST" := by
  intro fuel
  induction fuel with
  | zero =>
    intro body n r hr
    cases hw : isWorkingEither body <;> simp [pollLoop2, hw] at hr
  | succ f ih =>
    intro body n r hr
    cases hw : isWorkingEither body with
    | false => simp [pollLoop2, hw] at hr
    | true =>
      simp only [pollLoop2, hw, if_true] at hr
      simp at hr
      cases hr with
      | inl h => subst h; exact ⟨rfl, rfl⟩
      | inr h => exact ih _ _ r h

/-- The part_002 loop only stops (with fuel to spare) on a response in which
neither working encoding is present. -/
theorem pollLoop2_done_not_working (server : Nat → Req → String) (pd : String) :
    ∀ fuel body n b m tr,
      pollLoop2 server pd fuel body n = (some b, m, tr) →
      isWorkingEither b = false := by
  intro fuel
  induction fuel with
  | zero =>
    intro body n b m tr h
    cases hw : isWorkingEither body with
    | false =>
      simp [pollLoop2, hw] at h
      rw [← h.1]
      exact hw
    | true => simp [pollLoop2, hw] at h
  | succ f ih =>
    intro body n b m tr h
    cases hw : isWorkingEither body with
    | false =>
      simp [pollLoop2, hw] at h
      rw [← h.1]
      exact hw
    | true =>
      simp only [pollLoop2, hw, if_true] at h
      rcases hp : pollLoop2 server pd f (server n (pollReq pd)) (n + 1) with ⟨o, m', tr'⟩
      rw [hp] at h
      simp at h
      exact ih _ _ b m' tr' (by rw [hp, h.1])

/-- Against a server that always answers with the same working page, the
part_002 loop consumes all its fuel, issuing one poll request per unit. -/
theorem pollLoop2_const_len (body pd : String) (hw : isWorkingEither body = true) :
    ∀ fuel n, ((pollLoop2 (constSrv body) pd fuel body n).2.2).length = fuel := by
  intro fuel
  induction fuel with
  | zero => intro n; simp [pollLoop2, hw]
  | succ f ih => intro n; simp [pollLoop2, hw, constSrv, ih]

/-! ## Claim theorems about the report state machine -/

/-- Claim C2, amended.  In the part_001 revision of `DownloadReportCSV` every
poll POST is built from the response immediately preceding it (`freshPollsB`
holds of its loop from any starting response); in the part_002 revision the
poll body is built once, before the loop, and every poll POSTs that same
body `pd`, so polls after the first reuse fields extracted from the initial
response rather than from the immediately preceding one. -/
theorem poll_requests_freshness_by_revision :
    (∀ (server : Nat → Req → String) (fuel : Nat) (body : String) (n : Nat),
        freshPollsB server body n (pollLoop1 server fuel body n).2.2 = true)
    ∧ (∀ (server : Nat → Req → String) (pd : String) (fuel : Nat) (body : String)
        (n : Nat) (r : Req),
        r ∈ (pollLoop2 server pd fuel body n).2.2 →
        r.body = pd ∧ r.method = "POST") :=
  ⟨fun server fuel body n => pollLoop1_fresh server fuel body n,
   fun server pd fuel body n r h => pollLoop2_body_const server pd fuel body n r h⟩

/-- Witness for the amended C2 on the concrete three-page scenario. -/
theorem poll_requests_freshness_by_revision_witness :
    freshPollsB cexSrv cexBody0 1 (pollLoop1 cexSrv 5 cexBody0 1).2.2 = true
    ∧ (pollReq cexPd0 ∈ (pollLoop2 cexSrv cexPd0 9 cexBody0 1).2.2
      ∧ (pollReq cexPd0).body = cexPd0 ∧ (pollReq cexPd0).method = "POST") :=
  ⟨poll_requests_freshness_by_revision.1 cexSrv 5 cexBody0 1,
   by
    have hm : pollReq cexPd0 ∈ (pollLoop2 cexSrv cexPd0 9 cexBody0 1).2.2 := by decide
    have h := poll_requests_freshness_by_revision.2 cexSrv cexPd0 9 cexBody0 1
      (pollReq cexPd0) hm
    exact ⟨hm, h⟩⟩

/-- Claim C2, counterexample.  A concrete part_002 run with two poll
iterations: the response to the first poll is `cexBody1` (whose `cv.id`
differs from the initial page `cexBody0`), yet the second poll still POSTs
the form built from `cexBody0`; the freshness property is false for this
run's poll requests. -/
theorem poll_requests_stale_in_part002 :
    pollPhase2 cexSrv "r" 9
        = PhaseRes.finished cexBody2 3 [initReq "r", pollReq cexPd0, pollReq cexPd0]
      ∧ cexSrv 1 (pollReq cexPd0) = cexBody1
      ∧ buildPollData cexBody0 = Except.ok cexPd0
      ∧ buildPollData cexBody1 ≠ Except.ok cexPd0
      ∧ freshPollsB cexSrv cexBody0 1 [pollReq cexPd0, pollReq cexPd0] = false :=
  ⟨by decide, by decide, by decide, by decide, by decide⟩

/-- Claim C3, amended.  The loop-continuation check of part_002 treats a
response as working under either encoding (it keeps polling on either, and
stops exactly on a response carrying neither); but the initial classification
that decides whether to enter polling tests only the plain encoding, so no
request in a run whose initial response lacks the plain marker is a POST. -/
theorem working_marker_encodings_by_phase :
    (∀ (server : Nat → Req → String) (pd : String) (fuel : Nat) (body : String) (n : Nat),
        isWorkingEither body = true →
        (pollLoop2 server pd (fuel + 1) body n).2.2 ≠ [])
    ∧ (∀ (server : Nat → Req → String) (pd : String) (fuel : Nat) (body : String) (n : Nat),
        isWorkingEither body = false →
        pollLoop2 server pd fuel body n = (some body, n, []))
    ∧ (∀ (server : Nat → Req → String) (id : String) (fuel : Nat) (r : Req),
        goContains (server 0 (initReq id)) wStr1 = false →
        r ∈ (DownloadReportCSV2 server id fuel).2 → r.method ≠ "POST") := by
  refine ⟨?_, ?_, ?_⟩
  · intro server pd fuel body n hw
    simp [pollLoop2, hw]
  · intro server pd fuel body n hw
    cases fuel <;> simp [pollLoop2, hw]
  · intro server id fuel r hw hr
    simp only [DownloadReportCSV2, pollPhase2, hw, Bool.false_eq_true, if_false] at hr
    rcases hs : extractSURL ((server 0 (initReq id)).toList) with _ | u
    · simp only [finishDownload, hs] at hr
      cases hp : goContains (server 0 (initReq id)) promptStr <;>
        simp [hp] at hr <;> subst hr <;> simp [initReq]
    · simp only [finishDownload, hs] at hr
      simp at hr
      cases hr with
      | inl h => subst h; simp [initReq]
      | inr h => subst h; simp

/-- Witness for the amended C3: the loop keeps polling on the escaped-only
marker, stops on a quiet page, and a run whose initial response lacks the
plain marker issues no POST. -/
theorem working_marker_encodings_by_phase_witness :
    (isWorkingEither wStr2 = true
      ∧ (pollLoop2 escSrv "pd" (0 + 1) wStr2 1).2.2 ≠ [])
    ∧ pollLoop2 escSrv "pd" 7 "quiet" 1 = (some "quiet", 1, [])
    ∧ (goContains (constSrv "quiet" 0 (initReq "r")) wStr1 = false
      ∧ initReq "r" ∈ (DownloadReportCSV2 (constSrv "quiet") "r" 4).2
      ∧ (initReq "r").method ≠ "POST") :=
  ⟨⟨by decide, working_marker_encodings_by_phase.1 escSrv "pd" 0 wStr2 1 (by decide)⟩,
   working_marker_encodings_by_phase.2.1 escSrv "pd" 7 "quiet" 1 (by decide),
   ⟨by decide, by decide,
    working_marker_encodings_by_phase.2.2 (constSrv "quiet") "r" 4 (initReq "r")
      (by decide) (by decide)⟩⟩

/-- Claim C3, counterexample.  An initial response consisting of the
HTML-entity-escaped working marker alone: it contains a working encoding,
yet the part_002 run terminates immediately with the "could not understand"
error and issues no poll request at all. -/
theorem escaped_marker_initial_response_terminates :
    goContains wStr2 wStr2 = true
    ∧ isWorkingEither wStr2 = true
    ∧ DownloadReportCSV2 escSrv "r" 5 = (DLResult.errNotUnderstood, [initReq "r"]) :=
  ⟨by decide, by decide, by decide⟩

/-- Claim C4, amended.  A response that carries the prompting marker, is not
a working response, and contains no download-URL assignment makes
`DownloadReportCSV` fail with the unsupported-report error without issuing
any further request — both at the final-classification step
(`finishDownload`) and for a whole run entered with such an initial
response.  (The download-URL search has priority in the source, hence the
no-download-URL proviso.) -/
theorem prompting_without_download_link_fails :
    (∀ (server : Nat → Req → String) (n : Nat) (tr : List Req) (body : String),
        extractSURL body.toList = none →
        goContains body promptStr = true →
        finishDownload server body n tr = (DLResult.errPrompting, tr))
    ∧ (∀ (server : Nat → Req → String) (id : String) (fuel : Nat),
        goContains (server 0 (initReq id)) wStr1 = false →
        extractSURL (server 0 (initReq id)).toList = none →
        goContains (server 0 (initReq id)) promptStr = true →
        DownloadReportCSV2 server id fuel = (DLResult.errPrompting, [initReq id])) := by
  constructor
  · intro server n tr body hs hp
    simp only [String.toList] at hs
    simp [finishDownload, hs, hp]
  · intro server id fuel hw hs hp
    simp only [String.toList] at hs
    simp [DownloadReportCSV2, pollPhase2, hw, finishDownload, hs, hp]

/-- Witness for the amended C4 on a page that is exactly the prompting marker. -/
theorem prompting_without_download_link_fails_witness :
    (extractSURL promptStr.toList = none
      ∧ finishDownload (constSrv promptStr) promptStr 1 [initReq "r"]
          = (DLResult.errPrompting, [initReq "r"]))
    ∧ DownloadReportCSV2 (constSrv promptStr) "r" 5
        = (DLResult.errPrompting, [initReq "r"]) :=
  ⟨⟨by decide,
    prompting_without_download_link_fails.1 (constSrv promptStr) 1 [initReq "r"]
      promptStr (by decide) (by decide)⟩,
   prompting_without_download_link_fails.2 (constSrv promptStr) "r" 5
     (by decide) (by decide) (by decide)⟩

/-- Claim C4, counterexample.  A response carrying the prompting marker
together with a download-URL assignment (and no working marker): the run
does not fail with the unsupported-report error — it issues the download GET
and returns its body, because the source checks the download URL first. -/
theorem prompting_with_download_link_downloads :
    goContains pBody promptStr = true
    ∧ goContains pBody wStr1 = false
    ∧ DownloadReportCSV2 pSrv "r" 5
        = (DLResult.csv "THECSV",
           [initReq "r", { method := "GET", link := "/x.csv", body := "" }]) :=
  ⟨by decide, by decide, by decide⟩

/-- Claim C7.  When the submit-and-poll phase finishes with a final response
containing a download-URL assignment, the run issues exactly one further GET
request, to the captured URL, and returns the body the server gives for that
GET verbatim. -/
theorem download_url_single_get (server : Nat → Req → String) (id : String)
    (fuel : Nat) (b : String) (n : Nat) (tr : List Req) (u : List Char)
    (hp : pollPhase2 server id fuel = PhaseRes.finished b n tr)
    (hu : extractSURL b.toList = some u) :
    DownloadReportCSV2 server id fuel
      = (DLResult.csv (server n { method := "GET", link := String.mk u, body := "" }),
         tr ++ [{ method := "GET", link := String.mk u, body := "" }]) := by
  simp only [String.toList] at hu
  simp [DownloadReportCSV2, hp, finishDownload, hu]

/-- Witness for C7: a report that is done immediately, with a download link. -/
theorem download_url_single_get_witness :
    pollPhase2 doneSrv "r" 3 = PhaseRes.finished doneBody 1 [initReq "r"]
    ∧ DownloadReportCSV2 doneSrv "r" 3
        = (DLResult.csv "CSVDATA",
           [initReq "r", { method := "GET", link := "/d.csv", body := "" }]) := by
  have h1 : pollPhase2 doneSrv "r" 3 = PhaseRes.finished doneBody 1 [initReq "r"] := by
    decide
  have h2 : extractSURL doneBody.toList = some "/d.csv".toList := by decide
  have h := download_url_single_get doneSrv "r" 3 doneBody 1 [initReq "r"]
    ("/d.csv".toList) h1 h2
  refine ⟨h1, ?_⟩
  rw [h]
  decide

/-- Claim C8.  The wait loop has no maximum iteration count: for every bound
there is a server (one that always answers with a working page) under which
the loop performs more than that many poll iterations; and the loop exits
only when a response without the working markers arrives. -/
theorem poll_loop_unbounded :
    (∀ (bound : Nat) (pd body : String),
        isWorkingEither body = true →
        bound < ((pollLoop2 (constSrv body) pd (bound + 1) body 1).2.2).length)
    ∧ (∀ (server : Nat → Req → String) (pd : String) (fuel : Nat) (body : String)
        (n : Nat) (b : String) (m : Nat) (tr : List Req),
        pollLoop2 server pd fuel body n = (some b, m, tr) →
        isWorkingEither b = false) :=
  ⟨fun bound pd body hw => by rw [pollLoop2_const_len body pd hw (bound + 1) 1]; omega,
   fun server pd fuel body n b m tr h =>
     pollLoop2_done_not_working server pd fuel body n b m tr h⟩

/-- Witness for C8 at bound 2 and at a concrete terminating loop. -/
theorem poll_loop_unbounded_witness :
    (isWorkingEither wStr1 = true
      ∧ 2 < ((pollLoop2 (constSrv wStr1) "pd" (2 + 1) wStr1 1).2.2).length)
    ∧ (pollLoop2 (constSrv "quiet2") "pd" 0 "quiet2" 1 = (some "quiet2", 1, [])
      ∧ isWorkingEither "quiet2" = false) :=
  ⟨⟨by decide, poll_loop_unbounded.1 2 "pd" wStr1 (by decide)⟩,
   ⟨by decide,
    poll_loop_unbounded.2 (constSrv "quiet2") "pd" 0 "quiet2" 1 "quiet2" 1 []
      (by decide)⟩⟩

/-- Claim C9.  Resolving `["public", A, B]` when the public root's listing has
an entry `A`: if `A` is a folder whose listing has no entry named `B`, the
walk fails with the not-found error naming `B` after having listed only the
root and `A` (no request to resolve children of `B`); if `A` is a report, it
fails immediately citing `A`, after listing only the root (no listing of
`A`'s children). -/
theorem folder_path_missing_child_and_report_mid (w : FolderWorld) (A B : String)
    (eA : FolderEntry)
    (hA : lookupEntry (w.listing w.publicRootID) A = some eA) :
    (eA.type = FolderEntryType.Folder →
      lookupEntry (w.listing eA.ID) B = none →
      FolderEntryFromPath w ["public", A, B]
        = (PathRes.errNotFound B, [w.publicRootID, eA.ID]))
    ∧ (eA.type = FolderEntryType.Report →
      FolderEntryFromPath w ["public", A, B]
        = (PathRes.errReportMid A, [w.publicRootID])) := by
  constructor
  · intro ht hB
    simp [FolderEntryFromPath, folderWalk, hA, hB, ht]
  · intro ht
    simp [FolderEntryFromPath, folderWalk, hA, ht]

/-- Witness for C9 in the concrete folder world `wW`. -/
theorem folder_path_missing_child_and_report_mid_witness :
    (lookupEntry (wW.listing wW.publicRootID) "A"
        = some { type := FolderEntryType.Folder, ID := "FA" }
      ∧ FolderEntryFromPath wW ["public", "A", "B"]
          = (PathRes.errNotFound "B", ["PUB", "FA"]))
    ∧ (lookupEntry (wW.listing wW.publicRootID) "R"
        = some { type := FolderEntryType.Report, ID := "RR" }
      ∧ FolderEntryFromPath wW ["public", "R", "B"]
          = (PathRes.errReportMid "R", ["PUB"])) := by
  constructor
  · refine ⟨by decide, ?_⟩
    have h := (folder_path_missing_child_and_report_mid wW "A" "B"
      { type := FolderEntryType.Folder, ID := "FA" } (by decide)).1 rfl (by decide)
    rw [h]
    decide
  · refine ⟨by decide, ?_⟩
    have h := (folder_path_missing_child_and_report_mid wW "R" "B"
      { type := FolderEntryType.Report, ID := "RR" } (by decide)).2 rfl
    rw [h]
    decide

/-- Claim C10.  In the `src/download.go` revision, every run whose initial
response contains the plain working marker stops while building the first
poll request — with the nil-map panic when the page has a `b_action` field,
and with the missing-field panic otherwise — and issues no poll POST at all:
the request trace is exactly the initial GET. -/
theorem nil_map_panic_before_first_poll (server : Nat → Req → String) (id : String)
    (fuel : Nat) (hw : goContains (server 0 (initReq id)) wStr1 = true) :
    (DownloadReportCSVdl server id fuel).2 = [initReq id]
    ∧ ((DownloadReportCSVdl server id fuel).1 = DLResult.errNilMap
      ∨ (DownloadReportCSVdl server id fuel).1
          = DLResult.errMissingField "Could not find JSON value b_action in page") := by
  rcases hf : findJSONValueInPage (server 0 (initReq id)) "b_action" with _ | v
  · refine ⟨?_, Or.inr ?_⟩ <;>
      cases fuel <;> simp [DownloadReportCSVdl, pollLoopDl, hw, buildPollDataDl, hf]
  · refine ⟨?_, Or.inl ?_⟩ <;>
      cases fuel <;> simp [DownloadReportCSVdl, pollLoopDl, hw, buildPollDataDl, hf]

/-- Witness for C10 on a working page with a `b_action` field: the nil-map
panic, no poll POST. -/
theorem nil_map_panic_before_first_poll_witness :
    goContains (dlSrv 0 (initReq "r")) wStr1 = true
    ∧ ((DownloadReportCSVdl dlSrv "r" 5).2 = [initReq "r"]
      ∧ ((DownloadReportCSVdl dlSrv "r" 5).1 = DLResult.errNilMap
        ∨ (DownloadReportCSVdl dlSrv "r" 5).1
            = DLResult.errMissingField "Could not find JSON value b_action in page")) :=
  ⟨by decide, nil_map_panic_before_first_poll dlSrv "r" 5 (by decide)⟩

end Cognos
